import Mathlib

/-
  Verification of the VertiDog KDS order-state reconciliation engine.

  The repository contains several JavaScript variants of the same server.
  Shallow embedding conventions:
  * JS status strings {"new","in-progress","ready","done","cancelled"}
    become the inductive `Status` (these are the only statuses the modelled
    handlers ever store).
  * JS values that may be `undefined`, `null`, a number or a string (the
    `quantity` field of incoming line items) become `JQty`; `Number(...)`
    on the integer-literal strings that occur is `jsNumber`, with `none`
    standing for NaN / non-finite results.
  * The in-memory `orders` object (insertion-ordered string-keyed map)
    becomes an association list `Store`; property assignment becomes
    `upsertAssoc` (replace in place if the key exists, else append).
  * Absent JS object fields are modelled by neutral values ([] for an
    absent items array, "" for an absent string, 0 for an absent count);
    every place the code branches on such a field behaves identically
    under this encoding.
  * `Date.now()` is threaded as an explicit `now : Nat` parameter.
-/

namespace KDS

/-- The five KDS ticket statuses used by the servers. -/
inductive Status where
  | new
  | inProgress
  | ready
  | done
  | cancelled
deriving DecidableEq, Repr, Inhabited

/-- A JS value that can appear as an incoming line-item quantity:
`undefined`, `null`, a (finite) number, or a string. -/
inductive JQty where
  | undef
  | jnull
  | jnum (n : Int)
  | jstr (s : String)
deriving DecidableEq, Repr

/-- Digits of a numeral string folded to a natural number. -/
def digitsToNat (cs : List Char) : Nat :=
  cs.foldl (fun a c => a * 10 + (c.toNat - 48)) 0

/-- ASCII whitespace (the whitespace that occurs in this code base's data). -/
def isSpaceChar (c : Char) : Bool :=
  c == ' ' || c == '\t' || c == '\n' || c == '\r'

/-- Leading and trailing whitespace stripped (JS `s.trim()`), computed
structurally over the character list. -/
def strTrim (s : String) : String :=
  String.mk (((s.toList.dropWhile isSpaceChar).reverse.dropWhile isSpaceChar).reverse)

/-- ASCII lower-casing of one character. -/
def charToLower (c : Char) : Char :=
  if 'A' ≤ c ∧ c ≤ 'Z' then Char.ofNat (c.toNat + 32) else c

/-- JS `s.toLowerCase()` for the ASCII strings this code base handles,
computed structurally over the character list. -/
def strToLower (s : String) : String :=
  String.mk (s.toList.map charToLower)

/-- JS `Number(s)` for the string shapes that occur in this code base:
blank strings coerce to 0, decimal integer numerals to their value, and
anything else to NaN (`none`). -/
def parseNumeral (s : String) : Option Int :=
  let t := strTrim s
  if t = "" then some 0
  else if t.toList.all Char.isDigit then some (digitsToNat t.toList : Int)
  else if t.toList.head? = some '-' ∧ t.toList.tail ≠ [] ∧ t.toList.tail.all Char.isDigit then
    some (-(digitsToNat t.toList.tail : Int))
  else none

/-- JS `Number(q)`; `none` is NaN / non-finite. -/
def jsNumber : JQty → Option Int
  | .undef => none
  | .jnull => some 0
  | .jnum n => some n
  | .jstr s => parseNumeral s

/-- `toNumberQuantity` from the servers:
`if (q === undefined || q === null) return 0; const n = Number(q);
return Number.isFinite(n) ? n : 0;` -/
def toNumberQuantity (q : JQty) : Int :=
  match q with
  | .undef => 0
  | .jnull => 0
  | _ =>
    match jsNumber q with
    | some n => n
    | none => 0

/-- JS truthiness of a quantity value (`undefined`, `null`, `0`, `""` are falsy). -/
def jsTruthyQty : JQty → Bool
  | .undef => false
  | .jnull => false
  | .jnum n => n != 0
  | .jstr s => s != ""

/-- JS `q || 1`, as applied to line-item quantities (`li.quantity || 1`). -/
def qtyOrOne (q : JQty) : JQty :=
  if jsTruthyQty q then q else .jnum 1

/-- The stored quantity of an incoming line item:
`toNumberQuantity(li.quantity || 1)` (all webhook variants). -/
def normalizeQty (q : JQty) : Int :=
  toNumberQuantity (qtyOrOne q)

/-- JS `a || b` on strings ("" is the only falsy string). -/
def jsOrString (a b : String) : String :=
  if a = "" then b else a

/-- One stored KDS line item (third server.js variant shape; variants whose
items carry no `completed` field never read it). -/
structure Item where
  name : String
  quantity : Int
  modifiers : List String
  completed : Bool
deriving DecidableEq, Repr, Inhabited

/-- One stored KDS order (union of the fields the modelled handlers touch;
`fulfillmentType` / `orderNote` are display-only metadata with no effect on
any modelled behaviour and are left out). -/
structure Order where
  orderId : String
  orderNumber : String
  status : Status
  createdAt : Nat
  itemCount : Int
  items : List Item
  stateFromSquare : String
deriving DecidableEq, Repr, Inhabited

/-- An incoming Square line item as consumed by the webhook handlers
(`name`, `variation_name`, `quantity`, `modifiers[].name`). -/
structure LineItem where
  name : Option String
  variationName : Option String
  quantity : JQty
  modifiers : Option (List (Option String))
deriving DecidableEq, Repr

/-- Display name of a line item (third server.js variant):
`baseName = li.name || "Item"`, append ` - variation` when the trimmed
variation name is truthy and differs case-insensitively from the base. -/
def displayName (li : LineItem) : String :=
  let baseName := jsOrString (li.name.getD "") "Item"
  match li.variationName with
  | some v =>
    if v ≠ "" then
      let vt := strTrim v
      if vt ≠ "" ∧ strToLower vt ≠ strToLower baseName then baseName ++ " - " ++ vt
      else baseName
    else baseName
  | none => baseName

/-- `li.modifiers.map(m => m.name).filter(Boolean)`. -/
def cleanModifiers (ms : Option (List (Option String))) : List String :=
  match ms with
  | some l =>
    l.filterMap (fun m =>
      match m with
      | some s => if s = "" then none else some s
      | none => none)
  | none => []

/-- Webhook item mapping of the third server.js variant: display name,
normalized quantity, cleaned modifiers, and the `completed` flag preserved
positionally from the existing order's items (false when absent). -/
def mapLineItem3 (existingItems : Option (List Item)) (idx : Nat) (li : LineItem) : Item :=
  { name := displayName li
    quantity := normalizeQty li.quantity
    modifiers := cleanModifiers li.modifiers
    completed :=
      match existingItems with
      | some items =>
        match items[idx]? with
        | some e => e.completed
        | none => false
      | none => false }

/-- The webhook's next item list: map the incoming `line_items` when present,
else reuse the previously stored items, else empty. -/
def webhookItems3 (existing : Option Order) (lineItems : Option (List LineItem)) : List Item :=
  match lineItems with
  | some lis => lis.mapIdx (fun i li => mapLineItem3 (existing.map (·.items)) i li)
  | none =>
    match existing with
    | some e => e.items
    | none => []

/-- `items.reduce((sum, it) => sum + toNumberQuantity(it.quantity), 0)`. -/
def itemCount3 (items : List Item) : Int :=
  items.foldl (fun sum it => sum + toNumberQuantity (JQty.jnum it.quantity)) 0

/-- KDS STATUS LOCK LOGIC of the third server.js variant (lines 902-923):
Rule 1 cancellation override, Rule 2 lock on ready/cancelled, Rule 3
new -> in-progress when some item is completed, Rule 4 keep previous. -/
def kdsStatus3 (previousKdsStatus : Option Status) (stateFromSquare : String)
    (items : List Item) : Status :=
  let kdsStatus := previousKdsStatus.getD .new
  if stateFromSquare = "canceled" ∨ stateFromSquare = "closed" then
    .cancelled
  else if previousKdsStatus = some .ready ∨ previousKdsStatus = some .cancelled then
    previousKdsStatus.getD .new
  else if items.any (·.completed) ∧ kdsStatus = .new then
    .inProgress
  else if previousKdsStatus.isSome then
    previousKdsStatus.getD .new
  else
    kdsStatus

/-- Status lock of the second server.js variant (lines 511-527): cancellation
override, else stick to the previous status when it is past new/in-progress. -/
def kdsStatus2 (previousKdsStatus : Option Status) (stateFromSquare : String) : Status :=
  let kdsStatus := previousKdsStatus.getD .new
  if stateFromSquare = "canceled" ∨ stateFromSquare = "closed" then
    .cancelled
  else
    match previousKdsStatus with
    | some p => if p ≠ .new ∧ p ≠ .inProgress then p else kdsStatus
    | none => kdsStatus

/-- ULTIMATE KDS STATUS LOCK FIX of part_000 (lines 312-328) and part_001
(lines 280-291): two sequential ifs, the second keeping any existing
non-new status unless the result of the first is cancelled. -/
def kdsStatus0 (existingStatus : Option Status) (stateFromSquare : String) : Status :=
  let k0 := existingStatus.getD .new
  let k1 :=
    if stateFromSquare = "canceled" ∨ stateFromSquare = "closed" then Status.cancelled else k0
  match existingStatus with
  | some p => if p ≠ .new ∧ k1 ≠ .cancelled then p else k1
  | none => k1

/-- Broadcast suppression of the third server.js variant (lines 942-949):
suppress when an existing order's status did not change and is ready or
cancelled. -/
def shouldBroadcast3 (previousKdsStatus : Option Status) (mergedStatus : Status) : Bool :=
  match previousKdsStatus with
  | none => true
  | some p =>
    if mergedStatus = p ∧ (mergedStatus = .ready ∨ mergedStatus = .cancelled) then false
    else true

/-- Broadcast suppression of the second server.js variant (lines 544-556). -/
def shouldBroadcast2 (previousKdsStatus : Option Status) (mergedStatus : Status) : Bool :=
  let statusChanged := previousKdsStatus ≠ some mergedStatus
  match previousKdsStatus with
  | none => true
  | some _ =>
    if ¬statusChanged ∧ (mergedStatus = .cancelled ∨ mergedStatus = .ready) then false
    else true

/-- The in-memory `orders` object: an insertion-ordered string-keyed map. -/
abbrev Store := List (String × Order)

/-- JS property assignment `obj[k] = v`: replace in place when the key
exists, otherwise append. -/
def upsertAssoc {α : Type} (s : List (String × α)) (k : String) (v : α) :
    List (String × α) :=
  if s.any (fun p => p.1 == k) then
    s.map (fun p => if p.1 == k then (k, v) else p)
  else
    s ++ [(k, v)]

/-- `Object.values(orders)` — the Order Store's `list()`. -/
def Store.list (s : Store) : List Order := s.map (·.2)

/-- `orders[id]` — `none` when absent. -/
def Store.get? (s : Store) (id : String) : Option Order :=
  match s.find? (fun p => p.1 == id) with
  | some p => some p.2
  | none => none

/-- `Object.values(orders).find(o => o.orderNumber === num)`. -/
def findByOrderNumber (s : Store) (orderNumber : String) : Option Order :=
  (Store.list s).find? (fun o => o.orderNumber == orderNumber)

/-- `orderId.slice(-6)`, computed over the character list. -/
def sliceLast6 (s : String) : String :=
  String.mk (s.toList.drop (s.toList.length - 6))

/-- `typeof state === "string" ? state.toLowerCase() : ""`. -/
def stateLower (state : Option String) : String :=
  match state with
  | some s => strToLower s
  | none => ""

/-- Messages the server sends out to display sessions. -/
inductive OutMsg where
  | newOrder (o : Order)
  | orderReadyConfirm (orderNumber : String)
  | itemCompletedConfirm (orderNumber : String) (itemIndex : Nat) (completed : Bool)
      (allCompleted : Bool) (changedOrder : Option Order)
  | syncState (orders : List Order)
deriving DecidableEq, Repr

/-- A normalized webhook event as consumed by the status reconciler:
order id, raw Square state, the line items when present, and the display
order number already extracted from the Square order fields. -/
structure WebhookEvent where
  orderId : String
  state : Option String
  lineItems : Option (List LineItem)
  orderNumber : String
deriving DecidableEq, Repr

/-- `createdAt: existing.createdAt || Date.now()`. -/
def createdAtOf (existing : Option Order) (now : Nat) : Nat :=
  match existing with
  | some e => if e.createdAt = 0 then now else e.createdAt
  | none => now

/-- The Square webhook handler of the third server.js variant (lines
844-955): look up the existing order, build the next item list, compute the
locked status, merge, write through, and broadcast unless suppressed. -/
def webhook3 (now : Nat) (s : Store) (ev : WebhookEvent) : Store × List OutMsg :=
  let existing := Store.get? s ev.orderId
  let previousKdsStatus := existing.map (·.status)
  let items := webhookItems3 existing ev.lineItems
  let itemCount := itemCount3 items
  let stateFromSquare := stateLower ev.state
  let status := kdsStatus3 previousKdsStatus stateFromSquare items
  let merged : Order :=
    { orderId := ev.orderId
      orderNumber :=
        jsOrString ev.orderNumber
          (jsOrString ((existing.map (·.orderNumber)).getD "") (sliceLast6 ev.orderId))
      status := status
      createdAt := createdAtOf existing now
      itemCount := itemCount
      items := items
      stateFromSquare := stateFromSquare }
  let s' := upsertAssoc s ev.orderId merged
  (s', if shouldBroadcast3 previousKdsStatus merged.status then [.newOrder merged] else [])

/-- A display-session message of the third server.js variant. -/
inductive ClientMsg where
  | orderReady (orderNumber : String)
  | orderReactivated (orderNumber : String)
  | orderCancelled (orderNumber : String)
  | itemCompleted (orderNumber : String) (itemIndex : Nat) (completed : Bool)
  | syncRequest
deriving DecidableEq, Repr

/-- `ORDER_READY` body (third server.js variant, lines 747-754):
overwrite the status with `ready`. -/
def markReady (o : Order) : Order := { o with status := Status.ready }

/-- `items.map(item => ({ ...item, completed: false }))`. -/
def resetItems (items : List Item) : List Item :=
  items.map (fun it => { it with completed := false })

/-- `ORDER_REACTIVATED` body of the third server.js variant (lines 755-766):
recall resets the status to `new` and clears all item completion flags. -/
def reactivate3 (o : Order) : Order :=
  { o with status := Status.new, items := resetItems o.items }

/-- `ORDER_REACTIVATED` body of the second server.js variant (lines
338-355): set the status to `in-progress`; items are untouched. -/
def reactivate2 (o : Order) : Order := { o with status := Status.inProgress }

/-- `ITEM_COMPLETED` core (third server.js variant, lines 777-801): set the
indexed item's flag, promote `new` to `in-progress` on a completion, and
report whether every item is now completed. -/
def applyItemCompleted (o : Order) (idx : Nat) (completed : Bool) : Order × Bool :=
  match o.items[idx]? with
  | none => (o, false)
  | some it =>
    let items := o.items.set idx { it with completed := completed }
    let status := if completed ∧ o.status = Status.new then Status.inProgress else o.status
    ({ o with items := items, status := status }, items.all (·.completed))

/-- The display message handler of the third server.js variant (lines
742-815): every order-referencing message is a no-op when the order number
matches nothing; `SYNC_REQUEST` answers with all orders. -/
def handleClientMessage3 (s : Store) (m : ClientMsg) : Store × List OutMsg :=
  match m with
  | .orderReady num =>
    match findByOrderNumber s num with
    | some o =>
      let o' := markReady o
      (upsertAssoc s o'.orderId o', [.newOrder o'])
    | none => (s, [])
  | .orderReactivated num =>
    match findByOrderNumber s num with
    | some o =>
      let o' := reactivate3 o
      (upsertAssoc s o'.orderId o', [.newOrder o'])
    | none => (s, [])
  | .orderCancelled num =>
    match findByOrderNumber s num with
    | some o =>
      let o' := { o with status := Status.cancelled }
      (upsertAssoc s o'.orderId o', [.newOrder o'])
    | none => (s, [])
  | .itemCompleted num idx c =>
    match findByOrderNumber s num with
    | some o =>
      match o.items[idx]? with
      | some _ =>
        let r := applyItemCompleted o idx c
        (upsertAssoc s r.1.orderId r.1,
         [.itemCompletedConfirm num idx c r.2
            (if r.1.status ≠ o.status then some r.1 else none)])
      | none => (s, [])
    | none => (s, [])
  | .syncRequest => (s, [.syncState (Store.list s)])

/-- `SYNC_REQUEST` answer of the server.js variants (all orders). -/
def syncState3 (s : Store) : List Order := Store.list s

/-- `SYNC_REQUEST` answer of the first part_000 variant (lines 194-203):
`Object.values(orders).filter(o => o.status !== 'done' && o.status !==
'cancelled')`. -/
def syncStateFiltered (s : Store) : List Order :=
  (Store.list s).filter (fun o => !(o.status == Status.done) && !(o.status == Status.cancelled))

/-- A display-session message of the part_002 servers (store keyed by
order number). -/
inductive ClientMsgP2 where
  | syncRequest
  | orderReady (orderNumber : String)
  | orderReactivated (orderNumber : String)
  | orderSkippedDone (orderNumber : String)
deriving DecidableEq, Repr

/-- `msg.orderNumber` of a part_002 message (absent on sync requests). -/
def msgOrderNumberP2 : ClientMsgP2 → Option String
  | .syncRequest => none
  | .orderReady n => some n
  | .orderReactivated n => some n
  | .orderSkippedDone n => some n

/-- `handleClientMessage` of the first part_002 variant (lines 35-87):
a top-level guard drops any message whose order is already done or
cancelled, and `ORDER_READY` additionally re-checks that the order is not
in a final status before setting `ready`. -/
def handleClientMessageP2 (s : Store) (m : ClientMsgP2) : Store × List OutMsg :=
  let finalLocked : Bool :=
    match msgOrderNumberP2 m with
    | some n =>
      if n = "" then false
      else
        match Store.get? s n with
        | some o => o.status == Status.done || o.status == Status.cancelled
        | none => false
    | none => false
  if finalLocked then (s, [])
  else
    match m with
    | .syncRequest => (s, [.syncState (Store.list s)])
    | .orderReady n =>
      match Store.get? s n with
      | some o =>
        if o.status ≠ Status.done ∧ o.status ≠ Status.cancelled then
          (upsertAssoc s n { o with status := Status.ready }, [.orderReadyConfirm n])
        else (s, [])
      | none => (s, [])
    | .orderReactivated n =>
      match Store.get? s n with
      | some o =>
        let o' := { o with status := Status.inProgress }
        (upsertAssoc s n o', [.newOrder o'])
      | none => (s, [])
    | .orderSkippedDone n =>
      match Store.get? s n with
      | some o =>
        let o' := { o with status := Status.done }
        (upsertAssoc s n o', [.newOrder o'])
      | none => (s, [])

/-- A line item of the first server.js variant (item-level status string
`pending`/`done` instead of a completed flag). -/
structure ItemV1 where
  id : String
  name : String
  quantity : Int
  modifiers : List String
  status : String
deriving DecidableEq, Repr

/-- An order of the first server.js variant. -/
structure OrderV1 where
  id : String
  displayId : String
  status : String
  createdAt : Nat
  items : List ItemV1
  itemCount : Int
  source : String
  completedAt : Option Nat
deriving DecidableEq, Repr

/-- A display action of the first server.js variant. -/
inductive ActionV1 where
  | setStatus (payloadStatus : String)
  | toggleItem (itemId : String)
  | other
deriving DecidableEq, Repr

/-- `order.items.find(i => i.id === itemId)` followed by an in-place toggle
of that item's status: only the first matching item is flipped. -/
def toggleFirstItem (items : List ItemV1) (itemId : String) : List ItemV1 :=
  match items with
  | [] => []
  | i :: rest =>
    if i.id == itemId then
      { i with status := if i.status = "pending" then "done" else "pending" } :: rest
    else
      i :: toggleFirstItem rest itemId

/-- The ws message handler of the first server.js variant (lines 135-172):
`const order = orders[orderId]; if (!order) return;` then `SET_STATUS` /
`TOGGLE_ITEM`, write back, and broadcast the order. -/
def handleWsV1 (now : Nat) (s : List (String × OrderV1)) (orderId : String)
    (a : ActionV1) : List (String × OrderV1) × List OrderV1 :=
  match s.find? (fun p => p.1 == orderId) with
  | none => (s, [])
  | some p =>
    let order := p.2
    let order' :=
      match a with
      | .setStatus st =>
        let o1 := { order with status := st }
        if o1.status = "done" then { o1 with completedAt := some now }
        else { o1 with completedAt := none }
      | .toggleItem itemId =>
        match order.items.find? (fun i => i.id == itemId) with
        | some _ => { order with items := toggleFirstItem order.items itemId }
        | none => order
      | .other => order
    (upsertAssoc s orderId order', [order'])

/-- The simplified record persisted by part_000's `saveKDSState` (lines
29-43): only id, display number, status and creation time. -/
structure SimplifiedOrder where
  orderId : String
  orderNumber : String
  status : Status
  createdAt : Nat
deriving DecidableEq, Repr

/-- part_000 `saveKDSState`: project every order to its simplified record. -/
def saveKDSState0 (s : Store) : List SimplifiedOrder :=
  (Store.list s).map (fun o =>
    { orderId := o.orderId, orderNumber := o.orderNumber,
      status := o.status, createdAt := o.createdAt })

/-- The order part_000's `loadKDSState` rebuilds for one simplified record:
the persisted scalar fields, with the unpersisted fields absent (modelled
as empty / zero). -/
def expandSimplified (so : SimplifiedOrder) : Order :=
  { orderId := so.orderId, orderNumber := so.orderNumber, status := so.status,
    createdAt := so.createdAt, itemCount := 0, items := [], stateFromSquare := "" }

/-- part_000 `loadKDSState` (lines 45-69) applied at startup (empty map):
assign each loaded record into `orders` keyed by its id. -/
def loadKDSState0 (saved : List SimplifiedOrder) : Store :=
  saved.foldl (fun acc so => upsertAssoc acc so.orderId (expandSimplified so)) []

/-- A JSON value, for the second server.js variant's full-state
persistence (`JSON.stringify` / `JSON.parse` round trip). -/
inductive Json where
  | null
  | str (s : String)
  | num (n : Int)
  | bool (b : Bool)
  | arr (elems : List Json)
  | obj (fields : List (String × Json))
deriving Repr

/-- The status string stored in JSON. -/
def Status.toStr : Status → String
  | .new => "new"
  | .inProgress => "in-progress"
  | .ready => "ready"
  | .done => "done"
  | .cancelled => "cancelled"

/-- Parse a status string back. -/
def statusFromStr (s : String) : Option Status :=
  if s = "new" then some .new
  else if s = "in-progress" then some .inProgress
  else if s = "ready" then some .ready
  else if s = "done" then some .done
  else if s = "cancelled" then some .cancelled
  else none

/-- JSON encoding of one item. -/
def encodeItem (it : Item) : Json :=
  .obj [("name", .str it.name), ("quantity", .num it.quantity),
        ("modifiers", .arr (it.modifiers.map .str)), ("completed", .bool it.completed)]

/-- Decode a list of JSON strings. -/
def decodeStrings : List Json → Option (List String)
  | [] => some []
  | .str s :: rest => (decodeStrings rest).map (s :: ·)
  | _ => none

/-- Decode one item. -/
def decodeItem (j : Json) : Option Item :=
  match j with
  | .obj [("name", .str n), ("quantity", .num q), ("modifiers", .arr ms),
          ("completed", .bool c)] =>
    match decodeStrings ms with
    | some mods => some { name := n, quantity := q, modifiers := mods, completed := c }
    | none => none
  | _ => none

/-- Decode a list of items. -/
def decodeItems : List Json → Option (List Item)
  | [] => some []
  | j :: rest =>
    match decodeItem j with
    | some it => (decodeItems rest).map (it :: ·)
    | none => none

/-- JSON encoding of one order. -/
def encodeOrder (o : Order) : Json :=
  .obj [("orderId", .str o.orderId), ("orderNumber", .str o.orderNumber),
        ("status", .str o.status.toStr), ("createdAt", .num (o.createdAt : Int)),
        ("itemCount", .num o.itemCount), ("items", .arr (o.items.map encodeItem)),
        ("stateFromSquare", .str o.stateFromSquare)]

/-- Decode one order. -/
def decodeOrder (j : Json) : Option Order :=
  match j with
  | .obj [("orderId", .str oid), ("orderNumber", .str num), ("status", .str st),
          ("createdAt", .num ca), ("itemCount", .num ic), ("items", .arr its),
          ("stateFromSquare", .str sq)] =>
    match statusFromStr st, decodeItems its, ca.toNat' with
    | some status, some items, some createdAt =>
      some { orderId := oid, orderNumber := num, status := status,
             createdAt := createdAt, itemCount := ic, items := items,
             stateFromSquare := sq }
    | _, _, _ => none
  | _ => none

/-- Decode the keyed order fields of the store object. -/
def decodeStoreFields : List (String × Json) → Option Store
  | [] => some []
  | (k, j) :: rest =>
    match decodeOrder j with
    | some o => (decodeStoreFields rest).map ((k, o) :: ·)
    | none => none

/-- The second server.js variant's `saveKDSState` (lines 226-233):
`JSON.stringify(orders)` of the whole store. -/
def saveKDSState2 (s : Store) : Json :=
  .obj (s.map (fun p => (p.1, encodeOrder p.2)))

/-- The second server.js variant's `loadKDSState` (lines 210-224):
`Object.assign(orders, JSON.parse(data))` into the empty startup store. -/
def loadKDSState2 (j : Json) : Option Store :=
  match j with
  | .obj fields => decodeStoreFields fields
  | _ => none

/-- The test order created by the third server.js variant's `/test-order`
endpoint (lines 964-991): always status `new`, flags all false. -/
def testOrder3 (ticketNum orderId : String) (now : Nat) : Order :=
  let items : List Item :=
    [{ name := "VertiDog - Classic", quantity := 4,
       modifiers := ["Mustard", "Ketchup", "Grilled Onions"], completed := false },
     { name := "Chili Cheese Fries", quantity := 2,
       modifiers := ["Extra Chili", "Side of Ranch"], completed := false },
     { name := "Large Soda - Coke", quantity := 3,
       modifiers := ["Two 20oz", "One 32oz"], completed := false },
     { name := "Double Bacon Burger", quantity := 3,
       modifiers := ["Medium Rare", "Add Avocado"], completed := false }]
  { orderId := orderId, orderNumber := ticketNum, status := Status.new,
    createdAt := now, itemCount := itemCount3 items, items := items,
    stateFromSquare := "" }

/-- An inbound event of the third server.js variant: a webhook delivery or
a display-session message. -/
inductive Event where
  | webhook (now : Nat) (ev : WebhookEvent)
  | client (m : ClientMsg)

/-- Apply one event to the store. -/
def stepEvent (s : Store) : Event → Store
  | .webhook now ev => (webhook3 now s ev).1
  | .client m => (handleClientMessage3 s m).1

/-- Apply a sequence of events. -/
def applyEvents (s : Store) (es : List Event) : Store :=
  es.foldl stepEvent s

/-- The keys of the store. -/
def storeKeys (s : Store) : List String := s.map (·.1)

/-! ### Helper lemmas -/

theorem toNumberQuantity_jnum (n : Int) : toNumberQuantity (JQty.jnum n) = n := rfl

theorem find?_upsertAssoc {α : Type} (s : List (String × α)) (k : String) (v : α) :
    (upsertAssoc s k v).find? (fun p => p.1 == k) = some (k, v) := by
  induction s with
  | nil => simp [upsertAssoc]
  | cons p t ih =>
    by_cases hpk : (p.1 == k) = true
    · have hp : p.1 = k := eq_of_beq hpk
      have hrw : upsertAssoc (p :: t) k v
          = (k, v) :: (t.map (fun q => if q.1 == k then (k, v) else q)) := by
        simp [upsertAssoc, List.any_cons, hpk, hp]
      rw [hrw]
      exact List.find?_cons_of_pos _ (by simp)
    · have hp : ¬ p.1 = k := fun h => hpk (by simp [h])
      have hany : (p :: t).any (fun q => q.1 == k) = t.any (fun q => q.1 == k) := by
        simp [List.any_cons, hpk]
      by_cases hta : t.any (fun q => q.1 == k) = true
      · have hrw : upsertAssoc (p :: t) k v
            = p :: (t.map (fun q => if q.1 == k then (k, v) else q)) := by
          simp [upsertAssoc, hany, hta, hp]
        rw [hrw, List.find?_cons_of_neg _ (by simp [hp])]
        have ht : upsertAssoc t k v = t.map (fun q => if q.1 == k then (k, v) else q) := by
          simp [upsertAssoc, hta]
        rw [← ht]; exact ih
      · have hrw : upsertAssoc (p :: t) k v = p :: (t ++ [(k, v)]) := by
          simp [upsertAssoc, hany, hta]
        rw [hrw, List.find?_cons_of_neg _ (by simp [hp])]
        have ht : upsertAssoc t k v = t ++ [(k, v)] := by
          simp [upsertAssoc, hta]
        rw [← ht]; exact ih

theorem Store.get?_upsert (s : Store) (k : String) (v : Order) :
    Store.get? (upsertAssoc s k v) k = some v := by
  simp [Store.get?, find?_upsertAssoc]

theorem keys_upsertAssoc {α : Type} (s : List (String × α)) (k : String) (v : α) :
    (upsertAssoc s k v).map (·.1)
      = if s.any (fun p => p.1 == k) then s.map (·.1) else s.map (·.1) ++ [k] := by
  by_cases h : s.any (fun p => p.1 == k) = true
  · simp only [upsertAssoc, h, if_true, List.map_map]
    refine List.map_congr_left ?_
    intro q _
    by_cases hq : (q.1 == k) = true
    · simp [hq, (eq_of_beq hq).symm]
    · have hq' : ¬ q.1 = k := fun hh => hq (by simp [hh])
      simp [hq']
  · simp [upsertAssoc, h]

theorem nodup_keys_upsertAssoc {α : Type} {s : List (String × α)} (k : String) (v : α)
    (h : (s.map (·.1)).Nodup) : ((upsertAssoc s k v).map (·.1)).Nodup := by
  rw [keys_upsertAssoc]
  by_cases hany : s.any (fun p => p.1 == k) = true
  · simpa [hany] using h
  · have hk : k ∉ s.map (·.1) := by
      intro hmem
      rcases List.mem_map.mp hmem with ⟨p, hp, hpk⟩
      exact hany (List.any_eq_true.mpr ⟨p, hp, by simp [hpk]⟩)
    simp [hany, List.nodup_append, h, hk]

theorem nodup_keys_stepEvent {s : Store} (e : Event)
    (h : (storeKeys s).Nodup) : (storeKeys (stepEvent s e)).Nodup := by
  cases e with
  | webhook now ev =>
    exact nodup_keys_upsertAssoc _ _ h
  | client m =>
    cases m <;> simp only [stepEvent, handleClientMessage3, storeKeys] <;>
      (repeat' split) <;> first | exact h | exact nodup_keys_upsertAssoc _ _ h

theorem itemCount3_eq_sum_aux (items : List Item) :
    ∀ a : Int,
      items.foldl (fun sum it => sum + toNumberQuantity (JQty.jnum it.quantity)) a
        = a + (items.map Item.quantity).sum := by
  induction items with
  | nil => intro a; simp
  | cons it t ih =>
    intro a
    rw [List.foldl_cons, ih]
    simp only [List.map_cons, List.sum_cons, toNumberQuantity_jnum]
    ring

theorem itemCount3_eq_sum (items : List Item) :
    itemCount3 items = (items.map Item.quantity).sum := by
  simpa using itemCount3_eq_sum_aux items 0

/-! ### Claims -/

/-- C1: Status lock — for an order whose stored status is ready, cancelled
or done, the webhook status reconcilers (third server.js variant and the
part_000/part_001 variant) leave the status unchanged unless the source
state is canceled or closed, in which case the result is always
cancelled. -/
theorem c1_status_lock (prev : Status) (state : String) (items : List Item)
    (hterm : prev = Status.ready ∨ prev = Status.cancelled ∨ prev = Status.done) :
    kdsStatus3 (some prev) state items
        = (if state = "canceled" ∨ state = "closed" then Status.cancelled else prev) ∧
    kdsStatus0 (some prev) state
        = (if state = "canceled" ∨ state = "closed" then Status.cancelled else prev) := by
  by_cases hc : state = "canceled" ∨ state = "closed" <;>
    rcases hterm with h | h | h <;> subst h <;>
      simp [kdsStatus3, kdsStatus0, hc]

/-- Witness for C1: a source cancellation applied to a ready order yields
cancelled in both reconcilers. -/
theorem c1_status_lock_witness :
    (Status.ready = Status.ready ∨ Status.ready = Status.cancelled ∨
       Status.ready = Status.done) ∧
    (kdsStatus3 (some Status.ready) "canceled" []
        = (if ("canceled" : String) = "canceled" ∨ ("canceled" : String) = "closed"
           then Status.cancelled else Status.ready) ∧
     kdsStatus0 (some Status.ready) "canceled"
        = (if ("canceled" : String) = "canceled" ∨ ("canceled" : String) = "closed"
           then Status.cancelled else Status.ready)) :=
  ⟨Or.inl rfl, c1_status_lock Status.ready "canceled" [] (Or.inl rfl)⟩

/-- C2: a webhook event with a non-cancellation source state applied to an
order already at ready leaves the stored status at ready and is not
broadcast (third server.js variant, store level; second variant, at the
level of its status and suppression computations). -/
theorem c2_redundant_not_observable (now : Nat) (s : Store) (ev : WebhookEvent) (o : Order)
    (ho : Store.get? s ev.orderId = some o) (hr : o.status = Status.ready)
    (h1 : stateLower ev.state ≠ "canceled") (h2 : stateLower ev.state ≠ "closed") :
    (Store.get? (webhook3 now s ev).1 ev.orderId).map Order.status = some Status.ready ∧
    (webhook3 now s ev).2 = [] ∧
    kdsStatus2 (some Status.ready) (stateLower ev.state) = Status.ready ∧
    shouldBroadcast2 (some Status.ready) Status.ready = false := by
  have hks : kdsStatus3 (some o.status) (stateLower ev.state)
      (webhookItems3 (some o) ev.lineItems) = Status.ready := by
    rw [hr]; simp [kdsStatus3, h1, h2]
  have hsb : shouldBroadcast3 (some o.status)
      (kdsStatus3 (some o.status) (stateLower ev.state)
        (webhookItems3 (some o) ev.lineItems)) = false := by
    rw [hks, hr]; simp [shouldBroadcast3]
  refine ⟨?_, ?_, ?_, by decide⟩
  · simp only [webhook3, ho, Option.map_some']
    rw [Store.get?_upsert]
    simpa using hks
  · simp only [webhook3, ho, Option.map_some']
    simp [hsb]
  · simp [kdsStatus2, h1, h2]

/-- A ready order used by the C2 witness. -/
def sampleReadyOrder : Order :=
  { orderId := "sq_A", orderNumber := "101", status := Status.ready, createdAt := 7,
    itemCount := 1,
    items := [{ name := "Dog", quantity := 1, modifiers := [], completed := true }],
    stateFromSquare := "open" }

/-- A generic OPEN webhook event for the C2 witness order. -/
def sampleOpenEvent : WebhookEvent :=
  { orderId := "sq_A", state := some "OPEN", lineItems := none, orderNumber := "101" }

/-- Witness for C2: a second generic open event for a ready order. -/
theorem c2_redundant_not_observable_witness :
    Store.get? [("sq_A", sampleReadyOrder)] "sq_A" = some sampleReadyOrder ∧
    stateLower sampleOpenEvent.state ≠ "canceled" ∧
    (Store.get? (webhook3 99 [("sq_A", sampleReadyOrder)] sampleOpenEvent).1
        "sq_A").map Order.status = some Status.ready ∧
    (webhook3 99 [("sq_A", sampleReadyOrder)] sampleOpenEvent).2 = [] := by
  refine ⟨by decide, by decide, ?_⟩
  have h := c2_redundant_not_observable 99 [("sq_A", sampleReadyOrder)] sampleOpenEvent
    sampleReadyOrder (by decide) rfl (by decide) (by decide)
  exact ⟨h.1, h.2.1⟩

/-- C3 counterexample: the stored quantity for the input string "abc" is 0,
not 1, and the explicit numeric input 0 stores 1, not 0 (the `|| 1` default
replaces the falsy 0 before `toNumberQuantity` runs). -/
theorem c3_counterexample :
    normalizeQty (JQty.jstr "abc") = 0 ∧ ¬ normalizeQty (JQty.jstr "abc") = 1 ∧
    normalizeQty (JQty.jnum 0) = 1 ∧ ¬ normalizeQty (JQty.jnum 0) = 0 := by
  decide

/-- C3 amended: missing and null quantities store 1; a truthy non-numeric
string such as "abc" stores 0; an explicit numeric 0 (being falsy) stores
1; a stored 0 occurs exactly for truthy inputs whose `Number(...)` is 0 or
NaN; and the webhook's `itemCount` equals the sum of the stored
quantities. -/
theorem c3_quantity_normalization (q : JQty) (items : List Item) :
    normalizeQty JQty.undef = 1 ∧
    normalizeQty JQty.jnull = 1 ∧
    normalizeQty (JQty.jstr "abc") = 0 ∧
    normalizeQty (JQty.jstr "0") = 0 ∧
    normalizeQty (JQty.jnum 0) = 1 ∧
    (mapLineItem3 none 0
        { name := none, variationName := none, quantity := q,
          modifiers := none }).quantity = normalizeQty q ∧
    (normalizeQty q = 0 ↔ jsTruthyQty q = true ∧ toNumberQuantity q = 0) ∧
    itemCount3 items = (items.map Item.quantity).sum := by
  refine ⟨by decide, by decide, by decide, by decide, by decide, rfl, ?_,
    itemCount3_eq_sum items⟩
  by_cases ht : jsTruthyQty q = true
  · simp [normalizeQty, qtyOrOne, ht]
  · simp [normalizeQty, qtyOrOne, ht, toNumberQuantity, jsNumber]

/-- An in-progress order with one remaining incomplete item, for C4. -/
def c4order : Order :=
  { orderId := "o1", orderNumber := "202", status := Status.inProgress, createdAt := 3,
    itemCount := 2,
    items := [{ name := "Dog", quantity := 1, modifiers := [], completed := true },
              { name := "Fries", quantity := 1, modifiers := [], completed := false }],
    stateFromSquare := "open" }

/-- C4 counterexample: completing the last incomplete item of an
in-progress order leaves the status at in-progress — the `ITEM_COMPLETED`
handler never sets `ready`, it only promotes `new` to `in-progress`. -/
theorem c4_counterexample :
    (Store.get? (handleClientMessage3 [("o1", c4order)]
        (ClientMsg.itemCompleted "202" 1 true)).1 "o1").map Order.status
      = some Status.inProgress ∧
    ¬ (Store.get? (handleClientMessage3 [("o1", c4order)]
        (ClientMsg.itemCompleted "202" 1 true)).1 "o1").map Order.status
      = some Status.ready ∧
    (Store.get? (handleClientMessage3 [("o1", c4order)]
        (ClientMsg.itemCompleted "202" 1 true)).1 "o1").map
          (fun o => o.items.all (·.completed)) = some true := by
  decide

/-- C4 amended: completing the last incomplete item of an in-progress order
results in every item completed and the broadcast `allCompleted` flag true,
but the order status stays `in-progress` — no auto-promotion to `ready`. -/
theorem c4_no_auto_promote (o : Order) (idx : Nat) (it : Item)
    (hst : o.status = Status.inProgress)
    (hidx : o.items[idx]? = some it)
    (hrest : ∀ j, j < o.items.length → j ≠ idx →
        (o.items.getD j default).completed = true) :
    (applyItemCompleted o idx true).1.status = Status.inProgress ∧
    (applyItemCompleted o idx true).1.items.all (·.completed) = true ∧
    (applyItemCompleted o idx true).2 = true := by
  have hall : (o.items.set idx { it with completed := true }).all (·.completed) = true := by
    rw [List.all_eq_true]
    intro x hx
    rcases List.mem_iff_getElem.mp hx with ⟨j, hj, hxj⟩
    rw [List.length_set] at hj
    rw [List.getElem_set] at hxj
    by_cases hji : idx = j
    · rw [if_pos hji] at hxj
      rw [← hxj]
    · rw [if_neg hji] at hxj
      have hrj := hrest j hj (fun hh => hji hh.symm)
      rw [List.getD_eq_getElem o.items default hj] at hrj
      rw [← hxj]
      exact hrj
  refine ⟨?_, ?_, ?_⟩
  · simp only [applyItemCompleted, hidx]
    simp [hst]
  · simp only [applyItemCompleted, hidx]
    exact hall
  · simp only [applyItemCompleted, hidx]
    exact hall

/-- Witness for C4: the concrete two-item order. -/
theorem c4_no_auto_promote_witness :
    c4order.status = Status.inProgress ∧
    c4order.items[1]?
      = some { name := "Fries", quantity := 1, modifiers := [], completed := false } ∧
    ((applyItemCompleted c4order 1 true).1.status = Status.inProgress ∧
     (applyItemCompleted c4order 1 true).1.items.all (·.completed) = true ∧
     (applyItemCompleted c4order 1 true).2 = true) := by
  refine ⟨rfl, by decide,
    c4_no_auto_promote c4order 1
      { name := "Fries", quantity := 1, modifiers := [], completed := false }
      rfl (by decide) ?_⟩
  intro j hj hne
  have hlen : c4order.items.length = 2 := rfl
  rw [hlen] at hj
  interval_cases j
  · decide
  · exact absurd rfl hne

/-- A cancelled order with a completed item, for C5. -/
def c5order : Order :=
  { orderId := "o2", orderNumber := "303", status := Status.cancelled, createdAt := 4,
    itemCount := 1,
    items := [{ name := "Dog", quantity := 1, modifiers := [], completed := true }],
    stateFromSquare := "open" }

/-- C5 counterexample: the reactivation handler that resets item flags
(server.js lines 755-766) sets the status to `new`, not `in-progress`; the
handler that sets `in-progress` (server.js lines 338-355) does not reset
item completion flags. Neither cited handler matches the claim. -/
theorem c5_counterexample :
    (Store.get? (handleClientMessage3 [("o2", c5order)]
        (ClientMsg.orderReactivated "303")).1 "o2").map Order.status = some Status.new ∧
    ¬ (Store.get? (handleClientMessage3 [("o2", c5order)]
        (ClientMsg.orderReactivated "303")).1 "o2").map Order.status
      = some Status.inProgress ∧
    (reactivate2 c5order).status = Status.inProgress ∧
    ¬ (reactivate2 c5order).items.all (fun it => !it.completed) = true := by
  decide

/-- C5 amended: the item-resetting reactivation handler sets status `new`
and clears every completion flag; the other cited handler sets status
`in-progress` and leaves the items untouched. -/
theorem c5_reactivation (o : Order) :
    (reactivate3 o).status = Status.new ∧
    (reactivate3 o).items.all (fun it => !it.completed) = true ∧
    (reactivate2 o).status = Status.inProgress ∧
    (reactivate2 o).items = o.items := by
  refine ⟨rfl, ?_, rfl, rfl⟩
  simp [reactivate3, resetItems, List.all_eq_true]

/-- A store holding one done order, for C6. -/
def c6store : Store :=
  [("o3", { orderId := "o3", orderNumber := "404", status := Status.done,
            createdAt := 1, itemCount := 0, items := [], stateFromSquare := "" })]

/-- C6 counterexample: the filtered `SYNC_REQUEST` handler of the first
part_000 variant omits a stored done order, so its snapshot is not the
store's `list()`. -/
theorem c6_counterexample :
    ¬ syncStateFiltered c6store = Store.list c6store ∧
    syncStateFiltered c6store = [] ∧ (Store.list c6store).length = 1 := by
  decide

/-- C6 amended: in the server.js variants, after any sequence of events the
sync snapshot is exactly the store's `list()` (and distinct orders stay
distinct — store keys remain unique); the first part_000 variant instead
answers with `list()` filtered to exclude done and cancelled orders. -/
theorem c6_snapshot (s : Store) (es : List Event) (h : (storeKeys s).Nodup) :
    syncState3 (applyEvents s es) = Store.list (applyEvents s es) ∧
    (storeKeys (applyEvents s es)).Nodup ∧
    syncStateFiltered (applyEvents s es)
      = (Store.list (applyEvents s es)).filter
          (fun o => !(o.status == Status.done) && !(o.status == Status.cancelled)) := by
  refine ⟨rfl, ?_, rfl⟩
  induction es generalizing s with
  | nil => exact h
  | cons e t ih =>
    simp only [applyEvents, List.foldl_cons]
    exact ih (stepEvent s e) (nodup_keys_stepEvent e h)

/-- Witness for C6: the empty store with a webhook event followed by a
display cancel. -/
theorem c6_snapshot_witness :
    (storeKeys ([] : Store)).Nodup ∧
    (syncState3 (applyEvents []
        [Event.webhook 5 sampleOpenEvent, Event.client (ClientMsg.orderCancelled "101")])
      = Store.list (applyEvents []
        [Event.webhook 5 sampleOpenEvent, Event.client (ClientMsg.orderCancelled "101")]) ∧
     (storeKeys (applyEvents []
        [Event.webhook 5 sampleOpenEvent, Event.client (ClientMsg.orderCancelled "101")])).Nodup) := by
  refine ⟨by decide, ?_⟩
  have h := c6_snapshot []
    [Event.webhook 5 sampleOpenEvent, Event.client (ClientMsg.orderCancelled "101")]
    (by decide)
  exact ⟨h.1, h.2.1⟩

/-- `decodeStrings` inverts the string-list encoding. -/
theorem decodeStrings_encode (l : List String) :
    decodeStrings (l.map Json.str) = some l := by
  induction l with
  | nil => rfl
  | cons s t ih => simp [decodeStrings, ih]

/-- `decodeItem` inverts `encodeItem`. -/
theorem decodeItem_encode (it : Item) : decodeItem (encodeItem it) = some it := by
  simp [decodeItem, encodeItem, decodeStrings_encode]

/-- `decodeItems` inverts the item-list encoding. -/
theorem decodeItems_encode (items : List Item) :
    decodeItems (items.map encodeItem) = some items := by
  induction items with
  | nil => rfl
  | cons it t ih => simp [decodeItems, decodeItem_encode, ih]

/-- `statusFromStr` inverts `Status.toStr`. -/
theorem statusFromStr_toStr (st : Status) : statusFromStr st.toStr = some st := by
  cases st <;> rfl

/-- `Int.toNat'` inverts the natural-number cast. -/
theorem int_toNat_of_natCast (n : Nat) : (n : Int).toNat' = some n := rfl

/-- `decodeOrder` inverts `encodeOrder`. -/
theorem decodeOrder_encode (o : Order) : decodeOrder (encodeOrder o) = some o := by
  simp [decodeOrder, encodeOrder, statusFromStr_toStr, decodeItems_encode,
    int_toNat_of_natCast]

/-- `decodeStoreFields` inverts the store encoding. -/
theorem decodeStoreFields_encode (s : Store) :
    decodeStoreFields (s.map (fun p => (p.1, encodeOrder p.2))) = some s := by
  induction s with
  | nil => rfl
  | cons p t ih => simp [decodeStoreFields, decodeOrder_encode, ih]

/-- Folding part_000's load over records with pairwise-distinct ids appends
each rebuilt order. -/
theorem loadKDSState0_fold (saved : List SimplifiedOrder) :
    ∀ acc : Store,
      (∀ so ∈ saved, ¬ acc.any (fun p => p.1 == so.orderId) = true) →
      (saved.map SimplifiedOrder.orderId).Nodup →
      saved.foldl (fun acc so => upsertAssoc acc so.orderId (expandSimplified so)) acc
        = acc ++ saved.map (fun so => (so.orderId, expandSimplified so)) := by
  induction saved with
  | nil => intro acc _ _; simp
  | cons so t ih =>
    intro acc hacc hnd
    rw [List.map_cons] at hnd
    rcases List.nodup_cons.mp hnd with ⟨hnm, hndt⟩
    simp only [List.foldl_cons]
    have haccf : acc.any (fun p => p.1 == so.orderId) = false := by
      have := hacc so (List.mem_cons_self so t)
      rwa [Bool.not_eq_true] at this
    have h1 : upsertAssoc acc so.orderId (expandSimplified so)
        = acc ++ [(so.orderId, expandSimplified so)] := by
      simp [upsertAssoc, haccf]
    rw [h1, ih (acc ++ [(so.orderId, expandSimplified so)]) ?_ hndt]
    · simp
    · intro so' hso'
      have hacc' := hacc so' (List.mem_cons_of_mem _ hso')
      rw [Bool.not_eq_true] at hacc'
      have hne : ¬ so.orderId = so'.orderId := by
        intro hh
        exact hnm (by rw [hh]; exact List.mem_map.mpr ⟨so', hso', rfl⟩)
      simp [List.any_append, hacc', hne]

/-- A two-order mixed-status store, for C7. -/
def c7store : Store :=
  [("sq9", { orderId := "sq9", orderNumber := "505", status := Status.ready,
             createdAt := 2, itemCount := 1,
             items := [{ name := "Dog", quantity := 1, modifiers := ["Ketchup"],
                         completed := true }],
             stateFromSquare := "open" }),
   ("sq10", { orderId := "sq10", orderNumber := "506", status := Status.new,
              createdAt := 3, itemCount := 0, items := [], stateFromSquare := "" })]

/-- C7 counterexample: part_000's simplified persistence forgets the items —
the round trip rebuilds the ready order with an empty item list. -/
theorem c7_counterexample :
    ¬ Store.list (loadKDSState0 (saveKDSState0 c7store)) = Store.list c7store ∧
    (Store.get? (loadKDSState0 (saveKDSState0 c7store)) "sq9").map Order.items
      = some [] ∧
    ¬ (Store.get? c7store "sq9").map Order.items = some [] := by
  decide

/-- C7 amended: the full-state adapter of the second server.js variant
round-trips the entire store unchanged; part_000's adapter reproduces only
orderId, orderNumber, status and createdAt — the rebuilt orders carry no
items (and a zero item count). -/
theorem c7_round_trip (s : Store) (hids : ((Store.list s).map Order.orderId).Nodup) :
    loadKDSState2 (saveKDSState2 s) = some s ∧
    Store.list (loadKDSState0 (saveKDSState0 s))
      = (Store.list s).map (fun o => expandSimplified
          { orderId := o.orderId, orderNumber := o.orderNumber,
            status := o.status, createdAt := o.createdAt }) := by
  constructor
  · simp [loadKDSState2, saveKDSState2, decodeStoreFields_encode]
  · have hids' : ((saveKDSState0 s).map SimplifiedOrder.orderId).Nodup := by
      simpa [saveKDSState0, List.map_map, Function.comp] using hids
    have h := loadKDSState0_fold (saveKDSState0 s) [] (by simp) hids'
    rw [loadKDSState0, h]
    simp [Store.list, saveKDSState0, List.map_map, Function.comp]

/-- Witness for C7: the two-order mixed-status store. -/
theorem c7_round_trip_witness :
    ((Store.list c7store).map Order.orderId).Nodup ∧
    (loadKDSState2 (saveKDSState2 c7store) = some c7store ∧
     Store.list (loadKDSState0 (saveKDSState0 c7store))
      = (Store.list c7store).map (fun o => expandSimplified
          { orderId := o.orderId, orderNumber := o.orderNumber,
            status := o.status, createdAt := o.createdAt })) :=
  ⟨by decide, c7_round_trip c7store (by decide)⟩

/-- C8: a display event naming an order number (third server.js variant) or
order id (first server.js variant) that matches no stored order changes
nothing and sends nothing back. -/
theorem c8_unknown_noop (s : Store) (num : String) (idx : Nat) (c : Bool)
    (h : findByOrderNumber s num = none)
    (now : Nat) (sv1 : List (String × OrderV1)) (oid : String) (a : ActionV1)
    (h1 : sv1.find? (fun p => p.1 == oid) = none) :
    handleClientMessage3 s (ClientMsg.orderReady num) = (s, []) ∧
    handleClientMessage3 s (ClientMsg.orderReactivated num) = (s, []) ∧
    handleClientMessage3 s (ClientMsg.orderCancelled num) = (s, []) ∧
    handleClientMessage3 s (ClientMsg.itemCompleted num idx c) = (s, []) ∧
    handleWsV1 now sv1 oid a = (sv1, []) := by
  refine ⟨?_, ?_, ?_, ?_, ?_⟩ <;>
    simp [handleClientMessage3, handleWsV1, h, h1]

/-- Witness for C8: an empty store and an unknown number. -/
theorem c8_unknown_noop_witness :
    findByOrderNumber [] "404" = none ∧
    handleClientMessage3 [] (ClientMsg.orderReady "404") = ([], []) ∧
    handleWsV1 0 [] "X" ActionV1.other = ([], []) := by
  have h := c8_unknown_noop [] "404" 0 true rfl 0 [] "X" ActionV1.other rfl
  exact ⟨rfl, h.1, h.2.2.2.2⟩

/-- The webhook items of an unseen order carry no completed flags. -/
theorem webhookItems3_none_not_completed (lineItems : Option (List LineItem)) :
    (webhookItems3 none lineItems).any (·.completed) = false := by
  cases lineItems with
  | none => rfl
  | some l =>
    simp only [webhookItems3, List.mapIdx_eq_enum_map, List.any_map]
    simp only [mapLineItem3, Function.comp, List.any_eq_false]
    intro x hx
    rcases List.mem_map.mp hx with ⟨p, _, hp⟩
    rw [← hp]
    rcases p with ⟨i, li⟩
    exact Bool.false_ne_true

/-- A canceled-at-birth webhook event, for C9. -/
def c9event : WebhookEvent :=
  { orderId := "sq_new9", state := some "CANCELED", lineItems := none,
    orderNumber := "B9" }

/-- C9 counterexample: a webhook whose source state is CANCELED creates an
unseen order directly with status cancelled, not new (Rule 1 runs before
any existence check). -/
theorem c9_counterexample :
    Store.get? ([] : Store) c9event.orderId = none ∧
    (Store.get? (webhook3 0 [] c9event).1 "sq_new9").map Order.status
      = some Status.cancelled ∧
    ¬ (Store.get? (webhook3 0 [] c9event).1 "sq_new9").map Order.status
      = some Status.new := by
  decide

/-- C9 amended: a source event for an unseen orderId creates the order with
status new unless its source state is canceled or closed, in which case the
order is created already cancelled; a manual test order is always created
with status new. -/
theorem c9_creation_status (now : Nat) (s : Store) (ev : WebhookEvent)
    (h : Store.get? s ev.orderId = none) :
    (Store.get? (webhook3 now s ev).1 ev.orderId).map Order.status
      = some (if stateLower ev.state = "canceled" ∨ stateLower ev.state = "closed"
              then Status.cancelled else Status.new) ∧
    kdsStatus0 none (stateLower ev.state)
      = (if stateLower ev.state = "canceled" ∨ stateLower ev.state = "closed"
         then Status.cancelled else Status.new) ∧
    (testOrder3 "001" "TEST-001-5" now).status = Status.new := by
  refine ⟨?_, ?_, rfl⟩
  · simp only [webhook3, h, Option.map_none']
    rw [Store.get?_upsert]
    simp only [Option.map_some']
    by_cases hc : stateLower ev.state = "canceled" ∨ stateLower ev.state = "closed"
    · simp [kdsStatus3, hc]
    · simp [kdsStatus3, hc, webhookItems3_none_not_completed]
  · by_cases hc : stateLower ev.state = "canceled" ∨ stateLower ev.state = "closed" <;>
      simp [kdsStatus0, hc]

/-- Witness for C9: the canceled-at-birth event on the empty store. -/
theorem c9_creation_status_witness :
    Store.get? ([] : Store) c9event.orderId = none ∧
    ((Store.get? (webhook3 0 [] c9event).1 c9event.orderId).map Order.status
      = some (if stateLower c9event.state = "canceled" ∨
                 stateLower c9event.state = "closed"
              then Status.cancelled else Status.new) ∧
     (testOrder3 "001" "TEST-001-5" 0).status = Status.new) := by
  have h := c9_creation_status 0 [] c9event rfl
  exact ⟨rfl, h.1, h.2.2⟩

/-- A done order keyed by its order number, for C10. -/
def c10doneOrder : Order :=
  { orderId := "o10", orderNumber := "417", status := Status.done, createdAt := 0,
    itemCount := 0, items := [], stateFromSquare := "" }

/-- C10 counterexample: part_002's handleClientMessage ignores ORDER_READY
for a done order — that handler does apply a terminal-status guard, so the
status does not become ready there. -/
theorem c10_counterexample :
    handleClientMessageP2 [("417", c10doneOrder)] (ClientMsgP2.orderReady "417")
      = ([("417", c10doneOrder)], []) ∧
    ¬ (Store.get? (handleClientMessageP2 [("417", c10doneOrder)]
        (ClientMsgP2.orderReady "417")).1 "417").map Order.status
      = some Status.ready := by
  decide

/-- C10 amended: the server.js ORDER_READY handlers set any existing
order's status to ready regardless of its current status (terminal
included); part_002's handler instead ignores ORDER_READY for done or
cancelled orders and sets ready only from non-terminal statuses. -/
theorem c10_mark_ready (s : Store) (num : String) (o : Order)
    (h3 : findByOrderNumber s num = some o)
    (sP2 : Store) (n2 : String) (o2 : Order)
    (h2 : Store.get? sP2 n2 = some o2) (hn2 : ¬ n2 = "") :
    (Store.get? (handleClientMessage3 s (ClientMsg.orderReady num)).1 o.orderId).map
        Order.status = some Status.ready ∧
    ((o2.status = Status.done ∨ o2.status = Status.cancelled) →
      handleClientMessageP2 sP2 (ClientMsgP2.orderReady n2) = (sP2, [])) ∧
    ((¬ o2.status = Status.done ∧ ¬ o2.status = Status.cancelled) →
      (Store.get? (handleClientMessageP2 sP2 (ClientMsgP2.orderReady n2)).1 n2).map
          Order.status = some Status.ready) := by
  refine ⟨?_, ?_, ?_⟩
  · simp only [handleClientMessage3, h3]
    have hid : (markReady o).orderId = o.orderId := rfl
    rw [hid, Store.get?_upsert]
    rfl
  · intro hterm
    rcases hterm with hh | hh <;>
      simp [handleClientMessageP2, msgOrderNumberP2, h2, hn2, hh]
  · rintro ⟨hd, hc⟩
    simp only [handleClientMessageP2, msgOrderNumberP2, h2, hn2, hd, hc]
    simp [hd, hc, Store.get?_upsert]

/-- Witness for C10: a done order marked ready by the server.js handler,
and a new order marked ready by the part_002 handler. -/
theorem c10_mark_ready_witness :
    findByOrderNumber [("o10", c10doneOrder)] "417" = some c10doneOrder ∧
    ((Store.get? (handleClientMessage3 [("o10", c10doneOrder)]
        (ClientMsg.orderReady "417")).1 c10doneOrder.orderId).map Order.status
      = some Status.ready ∧
     ((¬ sampleReadyOrder.status = Status.done ∧
         ¬ sampleReadyOrder.status = Status.cancelled) →
      (Store.get? (handleClientMessageP2 [("101", sampleReadyOrder)]
          (ClientMsgP2.orderReady "101")).1 "101").map Order.status
        = some Status.ready)) := by
  have h := c10_mark_ready [("o10", c10doneOrder)] "417" c10doneOrder (by decide)
    [("101", sampleReadyOrder)] "101" sampleReadyOrder (by decide) (by decide)
  exact ⟨by decide, h.1, h.2.2⟩

end KDS
